import Mathlib

/-!
Verification of the ContentCurator repository's selection, scoring and
formatting logic, shallowly embedded from the Python sources
(`src/main.py`, `src/scrapers/telegram_scraper.py`, `src/utils.py`).

Python `int` is modelled as `Int`; message timestamps are modelled as `Int`
instants (only their order matters to the code); Python `None` for optional
attributes is modelled with `Option`.

Floating point note: the sources compute `math.ceil(n * 0.2)` and
`int(n * 0.2)` on IEEE doubles.  For every list length `n` up to `10^7`
(far beyond the reachable range, which is bounded by `LIMIT_PER_CHANNEL`),
`math.ceil(n * 0.2)` equals the exact `⌈n / 5⌉ = (n + 4) / 5` and
`int(n * 0.2)` equals the exact `⌊n / 5⌋ = n / 5`, so the embedding uses
exact natural-number arithmetic.
-/

namespace ContentCurator

/-- Embeds `utils.calculate_interaction_score(views, forwards, reactions=0)`:
`return views + (forwards * 2) + (reactions * 3)`. -/
def calculate_interaction_score (views forwards : Int) (reactions : Int := 0) : Int :=
  views + (forwards * 2) + (reactions * 3)

/-- Python character-level HTML escaping as performed by
`html.escape(s, quote=True)`: `&` then `<`, `>`, `"`, and the apostrophe
(code point 39) are replaced by entities.  `html.escape` performs the five
`str.replace` passes in that order; since no replacement string contains a
character replaced by a later pass, the sequential passes coincide with this
single character-wise substitution. -/
def pyEscapeChar (c : Char) : String :=
  if c = '&' then "&amp;"
  else if c = '<' then "&lt;"
  else if c = '>' then "&gt;"
  else if c = '"' then "&quot;"
  else if c = Char.ofNat 39 then "&#x27;"
  else String.singleton c

/-- Embeds `html.escape(text)` as used in `utils.format_post_caption`. -/
def escape (s : String) : String :=
  String.join (s.toList.map pyEscapeChar)

/-- The exact set of characters removed by Python `str.strip()` with no
argument: the code points on which `str.isspace()` holds, enumerated over
the whole Unicode range from CPython.  These are the ASCII whitespace
(code points 9-13 and 32), the information separators 28-31, next line
133, and the Unicode space classes Zs (160, 5760, 8192-8202, 8239, 8287,
12288), Zl (8232) and Zp (8233). -/
def pyIsSpace (c : Char) : Bool :=
  c.toNat ∈ [9, 10, 11, 12, 13, 28, 29, 30, 31, 32, 133, 160, 5760,
    8192, 8193, 8194, 8195, 8196, 8197, 8198, 8199, 8200, 8201, 8202,
    8232, 8233, 8239, 8287, 12288]

/-- Embeds the Python truthiness test `not original_text.strip()`:
true exactly when the string is empty or all-whitespace. -/
def pyStripIsEmpty (s : String) : Bool :=
  s.toList.all pyIsSpace

/-- Embeds `utils.format_post_caption(post)`.  The argument is the value of
the post's `'text'` key; `none` models an absent key, which
`post.get('text', '')` defaults to `""`. -/
def format_post_caption (text : Option String) : String :=
  let original_text := escape (text.getD "")
  let original_text :=
    if pyStripIsEmpty original_text then "[Media post without text]" else original_text
  original_text ++ "\n\n<blockquote>powered by Sinus-Alpha</blockquote>"

/-- Python values that can sit in a post dict (only key presence matters to
`validate_post_data`; the constructors cover the value shapes used). -/
inductive PyValue where
  | none
  | int (i : Int)
  | str (s : String)
  | bool (b : Bool)
deriving DecidableEq

/-- A Python dict of post data, modelled as an association list. -/
def PostDict : Type := List (String × PyValue)

/-- Embeds the Python membership test `field in post` for a dict. -/
def containsKey (post : List (String × PyValue)) (field : String) : Bool :=
  post.any fun e => e.1 = field

/-- Embeds `required_fields` from `utils.validate_post_data`. -/
def required_fields : List String :=
  ["channel", "id", "text", "views", "forwards", "has_media"]

/-- Embeds `utils.validate_post_data(post)`:
`all(field in post for field in required_fields)`. -/
def validate_post_data (post : List (String × PyValue)) : Bool :=
  required_fields.all fun field => containsKey post field

/-- A Telethon message as consumed by the fetch loops.  `date` is the
timestamp instant (only comparisons against the cutoff matter), `message`
is `msg.message` (`none` models Python `None`), `views`/`forwards` model
`getattr(msg, 'views', 0)` which may itself be `None`, and `media` is the
truthiness of `msg.media`. -/
structure Message where
  date : Int
  message : Option String
  views : Option Int
  forwards : Option Int
  id : Int
  media : Bool
deriving DecidableEq

/-- The post dict built by both fetch loops (`post_data` in the sources).
`date` is carried as the original instant. -/
structure Post where
  channel : String
  text : String
  views : Int
  forwards : Int
  interaction_score : Int
  date : Int
  id : Int
  has_media : Bool
deriving DecidableEq

/-- Builds the `post_data` dict for one in-window message, as both
`fetch_top_posts_with_client` and `fetch_top_posts_last_24h` do.
`Option.getD 0` models the `... or 0` guard (Python `x or 0` maps both
`None` and `0` to `0`). -/
def mkPost (channel : String) (msg : Message) : Post :=
  let views := msg.views.getD 0
  let forwards := msg.forwards.getD 0
  { channel := channel
    text := msg.message.getD ""
    views := views
    forwards := forwards
    interaction_score := calculate_interaction_score views forwards
    date := msg.date
    id := msg.id
    has_media := msg.media }

/-- The 24-hour window filter loop shared by both implementations:
`if msg.date >= cutoff_time: ... append ... else: break`.  The `else`
branch is a `break`, so iteration stops at the first message older than
the cutoff rather than filtering the whole list. -/
def filterRecent (channel : String) (cutoff : Int) : List Message → List Post
  | [] => []
  | msg :: rest =>
    if cutoff ≤ msg.date then mkPost channel msg :: filterRecent channel cutoff rest
    else []

/-- The comparison realised by
`posts.sort(key=lambda x: x['interaction_score'], reverse=True)`. -/
def scoreLE (a b : Post) : Bool :=
  b.interaction_score ≤ a.interaction_score

/-- Python `list.sort(key=..., reverse=True)` is a stable sort that leaves
elements with equal keys in their original relative order; `List.mergeSort`
with `scoreLE` is exactly such a stable descending sort. -/
def sortByScoreDesc (posts : List Post) : List Post :=
  posts.mergeSort scoreLE

/-- One channel's entry in `all_posts_by_channel` (`main.py`). -/
structure ChannelData where
  total_posts : Nat
  selected_posts : Nat
  posts : List Post
  error : Option String := none
deriving DecidableEq

/-- The per-channel body of the fetch loop in
`main.fetch_top_posts_with_client`.  The fetch outcome is modelled with
`Except`: `.error e` is an exception raised while fetching (caught by the
`except` clause, which records the error string and zeroes), `.ok msgs`
the fetched message list.  The success branch filters to the 24-hour
window, sorts descending by score, and keeps the top
`max(1, math.ceil(n * 0.2))` posts when `n > 0` (see the header note:
the float ceiling equals the exact `(n + 4) / 5` on the whole reachable
range), recording zeroes when no recent post exists. -/
def processChannel (cutoff : Int) (channel : String)
    (fetched : Except String (List Message)) : ChannelData :=
  match fetched with
  | .error e => { total_posts := 0, selected_posts := 0, posts := [], error := some e }
  | .ok messages =>
    let channel_posts := filterRecent channel cutoff messages
    let sorted := sortByScoreDesc channel_posts
    if channel_posts.isEmpty then
      { total_posts := 0, selected_posts := 0, posts := [] }
    else
      let channel_top_count := max 1 ((channel_posts.length + 4) / 5)
      { total_posts := channel_posts.length
        selected_posts := channel_top_count
        posts := sorted.take channel_top_count }

/-- Insertion into a Python dict modelled as an association list: an
existing key keeps its position and gets the new value, a fresh key is
appended at the end (Python dicts preserve insertion order). -/
def dictInsert (k : String) (v : ChannelData) :
    List (String × ChannelData) → List (String × ChannelData)
  | [] => [(k, v)]
  | e :: rest => if e.1 = k then (k, v) :: rest else e :: dictInsert k v rest

/-- The channel loop of `main.fetch_top_posts_with_client`, building
`all_posts_by_channel`.  Each input pairs a channel name with its fetch
outcome. -/
def buildDict (cutoff : Int)
    (channels : List (String × Except String (List Message))) :
    List (String × ChannelData) :=
  channels.foldl (fun d c => dictInsert c.1 (processChannel cutoff c.1 c.2) d) []

/-- The value returned by `main.fetch_top_posts_with_client`: all selected
posts of all channels concatenated in dict order, re-sorted descending by
interaction score. -/
def fetch_top_posts_with_client (cutoff : Int)
    (channels : List (String × Except String (List Message))) : List Post :=
  let all_selected := ((buildDict cutoff channels).map fun e => e.2.posts).flatten
  sortByScoreDesc all_selected

/-- The sum `total_selected_posts` accumulated over `all_posts_by_channel`. -/
def totalSelected (cutoff : Int)
    (channels : List (String × Except String (List Message))) : Nat :=
  ((buildDict cutoff channels).map fun e => e.2.selected_posts).sum

/-- The tail of `main.fetch_top_posts_with_client`: the snapshot write
(`json.dump` to `content/posts.json`) sits in a `try`/`except` whose
handler only logs, after which the function returns `all_selected_posts`.
The write's outcome is modelled as an `Except` input; both branches fall
through to the same return. -/
def fetch_top_posts_run (cutoff : Int)
    (channels : List (String × Except String (List Message)))
    (snapshotOutcome : Except String Unit) : List Post :=
  let all_selected := fetch_top_posts_with_client cutoff channels
  match snapshotOutcome with
  | .ok _ => all_selected
  | .error _ => all_selected

/-- The accumulation loop of `telegram_scraper.fetch_top_posts_last_24h`:
every channel's in-window posts are appended to one global `all_posts`
list; a fetch exception skips the channel (`continue`). -/
def scraperAllPosts (cutoff : Int)
    (channels : List (String × Except String (List Message))) : List Post :=
  channels.foldl
    (fun acc c =>
      match c.2 with
      | .error _ => acc
      | .ok msgs => acc ++ filterRecent c.1 cutoff msgs)
    []

/-- The value returned by `telegram_scraper.fetch_top_posts_last_24h`:
the pooled posts sorted descending by score, truncated to
`max(1, int(total * 0.2))` — a global floor-based count (`int()` truncates;
the float `int(n * 0.2)` equals the exact `n / 5` on the whole reachable
range, see the header note). -/
def fetch_top_posts_last_24h (cutoff : Int)
    (channels : List (String × Except String (List Message))) : List Post :=
  let all_posts := scraperAllPosts cutoff channels
  let sorted := sortByScoreDesc all_posts
  let top_count := max 1 (all_posts.length / 5)
  sorted.take top_count

/-- Two channels with one in-window post each: `main.py` selects one post
from each channel while `telegram_scraper.py` selects a single post
globally. -/
def demoChannels : List (String × Except String (List Message)) :=
  [("a", Except.ok [{ date := 5, message := some "x", views := some 10,
                      forwards := some 1, id := 1, media := false }]),
   ("b", Except.ok [{ date := 6, message := some "y", views := some 20,
                      forwards := some 2, id := 2, media := true }])]

theorem scoreLE_trans (a b c : Post) :
    scoreLE a b = true → scoreLE b c = true → scoreLE a c = true := by
  simp only [scoreLE, decide_eq_true_eq]
  omega

theorem scoreLE_total (a b : Post) : (scoreLE a b || scoreLE b a) = true := by
  simp only [scoreLE, Bool.or_eq_true, decide_eq_true_eq]
  omega

theorem sortByScoreDesc_pairwise (l : List Post) :
    List.Pairwise (fun a b => b.interaction_score ≤ a.interaction_score)
      (sortByScoreDesc l) := by
  have h := @List.sorted_mergeSort Post scoreLE
    (fun a b c => scoreLE_trans a b c) (fun a b => scoreLE_total a b) l
  exact h.imp fun hab => by simpa [scoreLE] using hab

theorem sortByScoreDesc_filter_score (l : List Post) (s : Int) :
    (sortByScoreDesc l).filter (fun p => p.interaction_score = s) =
      l.filter (fun p => p.interaction_score = s) := by
  set p : Post → Bool := fun p => p.interaction_score = s with hp
  have hmem : ∀ a ∈ l.filter p, p a = true := fun a ha => (List.mem_filter.mp ha).2
  have hpw : List.Pairwise (fun a b => scoreLE a b = true) (l.filter p) := by
    refine List.pairwise_of_forall_mem_list fun a ha b hb => ?_
    have ha2 := hmem a ha
    have hb2 := hmem b hb
    simp only [hp, decide_eq_true_eq] at ha2 hb2
    simp [scoreLE, ha2, hb2]
  have h1 : (l.filter p).Sublist (l.mergeSort scoreLE) :=
    List.sublist_mergeSort (fun a b c => scoreLE_trans a b c)
      (fun a b => scoreLE_total a b) hpw (List.filter_sublist l)
  have h2 : (l.filter p).Sublist ((l.mergeSort scoreLE).filter p) := by
    have := h1.filter p
    rwa [List.filter_eq_self.mpr hmem] at this
  have h3 : ((l.mergeSort scoreLE).filter p).Perm (l.filter p) :=
    (List.mergeSort_perm l scoreLE).filter p
  exact (h2.eq_of_length h3.length_eq.symm).symm

theorem processChannel_posts_length (cutoff : Int) (channel : String)
    (fetched : Except String (List Message)) :
    (processChannel cutoff channel fetched).posts.length =
      (processChannel cutoff channel fetched).selected_posts := by
  match fetched with
  | .error e => rfl
  | .ok messages =>
    simp only [processChannel]
    by_cases hemp : (filterRecent channel cutoff messages).isEmpty
    · simp [hemp]
    · simp only [hemp, Bool.false_eq_true, if_false]
      have hlen : (sortByScoreDesc (filterRecent channel cutoff messages)).length =
          (filterRecent channel cutoff messages).length :=
        List.length_mergeSort _
      have hpos : 1 ≤ (filterRecent channel cutoff messages).length := by
        cases h : filterRecent channel cutoff messages with
        | nil => rw [h] at hemp; simp at hemp
        | cons a t => simp [h]
      simp only [List.length_take, hlen]
      omega

theorem dictInsert_mem {e : String × ChannelData} (k : String) (v : ChannelData)
    (d : List (String × ChannelData)) (h : e ∈ dictInsert k v d) :
    e = (k, v) ∨ e ∈ d := by
  induction d with
  | nil => simpa [dictInsert] using h
  | cons hd tl ih =>
    simp only [dictInsert] at h
    by_cases hk : hd.1 = k
    · simp only [hk, if_true] at h
      rcases List.mem_cons.mp h with h1 | h1
      · exact Or.inl h1
      · exact Or.inr (List.mem_cons_of_mem hd h1)
    · simp only [hk, if_false] at h
      rcases List.mem_cons.mp h with h1 | h1
      · exact Or.inr (h1 ▸ List.mem_cons_self hd tl)
      · rcases ih h1 with h2 | h2
        · exact Or.inl h2
        · exact Or.inr (List.mem_cons_of_mem hd h2)

theorem buildDict_mem_posts_length (cutoff : Int)
    (channels : List (String × Except String (List Message))) :
    ∀ e ∈ buildDict cutoff channels, e.2.posts.length = e.2.selected_posts := by
  have key : ∀ (chs : List (String × Except String (List Message)))
      (d : List (String × ChannelData)),
      (∀ e ∈ d, e.2.posts.length = e.2.selected_posts) →
      ∀ e ∈ chs.foldl
        (fun d c => dictInsert c.1 (processChannel cutoff c.1 c.2) d) d,
        e.2.posts.length = e.2.selected_posts := by
    intro chs
    induction chs with
    | nil => intro d hd e he; exact hd e he
    | cons c rest ih =>
      intro d hd e he
      refine ih _ (fun e2 he2 => ?_) e he
      rcases dictInsert_mem _ _ _ he2 with h1 | h1
      · rw [h1]
        exact processChannel_posts_length cutoff c.1 c.2
      · exact hd e2 h1
  exact key channels [] (by intro e he; simp at he)

theorem filterRecent_append_cut (channel : String) (cutoff : Int)
    (pre suf : List Message) (bad : Message) (hbad : bad.date < cutoff) :
    filterRecent channel cutoff (pre ++ bad :: suf) = filterRecent channel cutoff pre := by
  induction pre with
  | nil =>
    simp only [List.nil_append, filterRecent]
    rw [if_neg (by omega)]
  | cons m rest ih =>
    simp only [List.cons_append, filterRecent, List.append_eq]
    by_cases hm : cutoff ≤ m.date
    · rw [if_pos hm, if_pos hm, ih]
    · rw [if_neg hm, if_neg hm]

theorem sortByScoreDesc_pairwiseBool (l : List Post) :
    List.Pairwise (fun a b => scoreLE a b = true) (sortByScoreDesc l) :=
  @List.sorted_mergeSort Post scoreLE
    (fun a b c => scoreLE_trans a b c) (fun a b => scoreLE_total a b) l

theorem dictInsert_of_not_mem (k : String) (v : ChannelData)
    (d : List (String × ChannelData)) (h : k ∉ d.map Prod.fst) :
    dictInsert k v d = d ++ [(k, v)] := by
  induction d with
  | nil => rfl
  | cons hd tl ih =>
    simp only [List.map_cons, List.mem_cons] at h
    push_neg at h
    simp only [dictInsert]
    rw [if_neg fun he => h.1 he.symm, ih h.2, List.cons_append]

theorem foldl_dictInsert_fresh (cutoff : Int) :
    ∀ (chs : List (String × Except String (List Message)))
      (d : List (String × ChannelData)),
      (∀ c ∈ chs, c.1 ∉ d.map Prod.fst) → (chs.map Prod.fst).Nodup →
      chs.foldl (fun d c => dictInsert c.1 (processChannel cutoff c.1 c.2) d) d =
        d ++ chs.map fun c => (c.1, processChannel cutoff c.1 c.2) := by
  intro chs
  induction chs with
  | nil => intro d _ _; simp
  | cons c rest ih =>
    intro d hfresh hnodup
    simp only [List.foldl_cons]
    rw [dictInsert_of_not_mem _ _ _ (hfresh c (List.mem_cons_self c rest))]
    simp only [List.map_cons, List.nodup_cons] at hnodup
    rw [ih (d ++ [(c.1, processChannel cutoff c.1 c.2)]) ?_ hnodup.2]
    · simp [List.append_assoc]
    · intro c2 hc2
      simp only [List.map_append, List.mem_append, List.map_cons, List.map_nil,
        List.mem_singleton, not_or]
      refine ⟨hfresh c2 (List.mem_cons_of_mem c hc2), fun heq => ?_⟩
      exact hnodup.1 (heq ▸ List.mem_map_of_mem Prod.fst hc2)

theorem buildDict_eq_map (cutoff : Int)
    (chs : List (String × Except String (List Message)))
    (hnodup : (chs.map Prod.fst).Nodup) :
    buildDict cutoff chs = chs.map fun c => (c.1, processChannel cutoff c.1 c.2) := by
  have h := foldl_dictInsert_fresh cutoff chs [] (by simp) hnodup
  simpa [buildDict] using h

theorem containsKey_eq_keys_mem (post : List (String × PyValue)) (field : String) :
    containsKey post field = (post.map Prod.fst).any fun k => k = field := by
  induction post with
  | nil => rfl
  | cons e rest ih => simp [containsKey, List.any_cons] at ih ⊢; rw [ih]

/-- C6: for all integers, `calculate_interaction_score(v, f, r) = v + 2f + 3r`,
the reactions argument defaults to `0`, and the score is monotonically
non-decreasing in each argument independently (the function is a pure total
Lean function, hence deterministic). -/
theorem calculate_interaction_score_spec (v f r : Int) :
    calculate_interaction_score v f r = v + 2 * f + 3 * r ∧
    calculate_interaction_score v f = v + 2 * f ∧
    (∀ v2, v ≤ v2 →
      calculate_interaction_score v f r ≤ calculate_interaction_score v2 f r) ∧
    (∀ f2, f ≤ f2 →
      calculate_interaction_score v f r ≤ calculate_interaction_score v f2 r) ∧
    (∀ r2, r ≤ r2 →
      calculate_interaction_score v f r ≤ calculate_interaction_score v f r2) := by
  refine ⟨by unfold calculate_interaction_score; ring, by unfold calculate_interaction_score; ring, ?_, ?_, ?_⟩ <;>
    · intro x hx
      unfold calculate_interaction_score
      omega

theorem calculate_interaction_score_spec_witness :
    calculate_interaction_score 3 4 5 = 3 + 2 * 4 + 3 * 5 ∧
    calculate_interaction_score 3 4 5 ≤ calculate_interaction_score 10 4 5 ∧
    calculate_interaction_score 3 4 5 ≤ calculate_interaction_score 3 9 5 ∧
    calculate_interaction_score 3 4 5 ≤ calculate_interaction_score 3 4 8 :=
  ⟨(calculate_interaction_score_spec 3 4 5).1,
   (calculate_interaction_score_spec 3 4 5).2.2.1 10 (by decide),
   (calculate_interaction_score_spec 3 4 5).2.2.2.1 9 (by decide),
   (calculate_interaction_score_spec 3 4 5).2.2.2.2 8 (by decide)⟩

/-- C8: `format_post_caption` HTML-escapes the raw text, substitutes the
placeholder `[Media post without text]` when the escaped text is empty or
whitespace-only, and appends the fixed blockquote footer; in particular
`"<b>hi</b>"` yields the escaped literal plus footer and `""` yields the
placeholder plus footer (purity and determinism are inherent: it is a Lean
function of the text value alone). -/
theorem format_post_caption_spec (t : String) :
    (pyStripIsEmpty (escape t) = true →
      format_post_caption (some t) =
        "[Media post without text]\n\n<blockquote>powered by Sinus-Alpha</blockquote>") ∧
    (pyStripIsEmpty (escape t) = false →
      format_post_caption (some t) =
        escape t ++ "\n\n<blockquote>powered by Sinus-Alpha</blockquote>") ∧
    format_post_caption (some "<b>hi</b>") =
      "&lt;b&gt;hi&lt;/b&gt;\n\n<blockquote>powered by Sinus-Alpha</blockquote>" ∧
    format_post_caption (some "") =
      "[Media post without text]\n\n<blockquote>powered by Sinus-Alpha</blockquote>" := by
  refine ⟨fun h => ?_, fun h => ?_, by decide, by decide⟩ <;>
    · unfold format_post_caption
      simp [h]

theorem format_post_caption_spec_witness :
    format_post_caption (some "  ") =
      "[Media post without text]\n\n<blockquote>powered by Sinus-Alpha</blockquote>" ∧
    format_post_caption (some "hi") =
      "hi\n\n<blockquote>powered by Sinus-Alpha</blockquote>" :=
  ⟨(format_post_caption_spec "  ").1 (by decide),
   (format_post_caption_spec "hi").2.1 (by decide)⟩

/-- C10: `validate_post_data` returns true iff every one of the six required
keys is present; it depends only on the key set (so arbitrary values,
including `None` text and negative counters, are accepted). -/
theorem validate_post_data_spec (post : List (String × PyValue)) :
    (validate_post_data post = true ↔
      ∀ field ∈ required_fields, containsKey post field = true) ∧
    (∀ post2 : List (String × PyValue),
      post.map Prod.fst = post2.map Prod.fst →
        validate_post_data post = validate_post_data post2) ∧
    validate_post_data
      [("channel", PyValue.str "c"), ("id", PyValue.int 1),
       ("text", PyValue.none), ("views", PyValue.int (-3)),
       ("forwards", PyValue.int 0), ("has_media", PyValue.bool false)] = true := by
  refine ⟨List.all_eq_true, fun post2 hkeys => ?_, by decide⟩
  unfold validate_post_data
  have hfield : ∀ field, containsKey post field = containsKey post2 field := by
    intro field
    rw [containsKey_eq_keys_mem, containsKey_eq_keys_mem, hkeys]
  simp only [hfield]

theorem validate_post_data_spec_witness :
    validate_post_data
      [("channel", PyValue.str "a"), ("id", PyValue.int 7),
       ("text", PyValue.str "x"), ("views", PyValue.int 5),
       ("forwards", PyValue.int 1), ("has_media", PyValue.bool true)] =
    validate_post_data
      [("channel", PyValue.none), ("id", PyValue.none),
       ("text", PyValue.none), ("views", PyValue.int (-1)),
       ("forwards", PyValue.none), ("has_media", PyValue.none)] :=
  (validate_post_data_spec
      [("channel", PyValue.str "a"), ("id", PyValue.int 7),
       ("text", PyValue.str "x"), ("views", PyValue.int 5),
       ("forwards", PyValue.int 1), ("has_media", PyValue.bool true)]).2.1
    [("channel", PyValue.none), ("id", PyValue.none),
     ("text", PyValue.none), ("views", PyValue.int (-1)),
     ("forwards", PyValue.none), ("has_media", PyValue.none)] (by decide)

/-- C2: the window filter returns exactly the maximal leading segment of
items with timestamp at or after the cutoff (`takeWhile` semantics), and
any item positioned after a sub-cutoff item is excluded even if its own
timestamp is at or after the cutoff: iteration terminates at the first old
item instead of filtering the full list. -/
theorem window_filter_early_termination (channel : String) (cutoff : Int)
    (pre suf : List Message) (bad : Message) (hbad : bad.date < cutoff) :
    (∀ msgs : List Message,
      filterRecent channel cutoff msgs =
        (msgs.takeWhile fun m => cutoff ≤ m.date).map (mkPost channel)) ∧
    filterRecent channel cutoff (pre ++ bad :: suf) =
      filterRecent channel cutoff pre := by
  refine ⟨fun msgs => ?_, filterRecent_append_cut channel cutoff pre suf bad hbad⟩
  induction msgs with
  | nil => rfl
  | cons m rest ih =>
    by_cases hm : cutoff ≤ m.date
    · simp only [filterRecent, if_pos hm, List.takeWhile_cons, decide_eq_true hm,
        if_true, List.map_cons, ih]
    · simp only [filterRecent, if_neg hm, List.takeWhile_cons,
        decide_eq_false hm, Bool.false_eq_true, if_false, List.map_nil]

theorem window_filter_early_termination_witness :
    filterRecent "a" 0
      [{ date := 5, message := some "m1", views := some 1, forwards := some 0,
         id := 1, media := false },
       { date := -1, message := some "old", views := some 2, forwards := some 0,
         id := 2, media := false },
       { date := 7, message := some "m3", views := some 3, forwards := some 0,
         id := 3, media := false }] =
    filterRecent "a" 0
      [{ date := 5, message := some "m1", views := some 1, forwards := some 0,
         id := 1, media := false }] :=
  (window_filter_early_termination "a" 0
      [{ date := 5, message := some "m1", views := some 1, forwards := some 0,
         id := 1, media := false }]
      [{ date := 7, message := some "m3", views := some 3, forwards := some 0,
         id := 3, media := false }]
      { date := -1, message := some "old", views := some 2, forwards := some 0,
        id := 2, media := false } (by decide)).2

/-- C1: for a channel whose window-filtered list has `n` items, the
recorded `selected_posts` equals `max(1, ⌈n * 0.2⌉) = max(1, (n + 4) / 5)`
when `n > 0` and `0` when `n = 0`, and the selected post list has exactly
that length. -/
theorem per_channel_selected_count (cutoff : Int) (channel : String)
    (msgs : List Message) :
    (processChannel cutoff channel (Except.ok msgs)).selected_posts =
      (if (filterRecent channel cutoff msgs).length = 0 then 0
       else max 1 (((filterRecent channel cutoff msgs).length + 4) / 5)) ∧
    (processChannel cutoff channel (Except.ok msgs)).posts.length =
      (processChannel cutoff channel (Except.ok msgs)).selected_posts := by
  refine ⟨?_, processChannel_posts_length cutoff channel (Except.ok msgs)⟩
  cases h : filterRecent channel cutoff msgs with
  | nil => simp [processChannel, h]
  | cons a t => simp [processChannel, h]

/-- C3: each channel's selection output is sorted descending by
`interaction_score`, and posts of any fixed score appear in the output as a
leading segment of their occurrence sequence in the filtered input, i.e.
equal-score posts keep their relative fetch order (stability of Python's
`list.sort`). -/
theorem per_channel_selection_sorted_stable (cutoff : Int) (channel : String)
    (msgs : List Message) :
    List.Pairwise (fun a b => b.interaction_score ≤ a.interaction_score)
      (processChannel cutoff channel (Except.ok msgs)).posts ∧
    ∀ s : Int,
      (processChannel cutoff channel (Except.ok msgs)).posts.filter
          (fun p => p.interaction_score = s) <+:
        (filterRecent channel cutoff msgs).filter
          (fun p => p.interaction_score = s) := by
  constructor
  · cases h : filterRecent channel cutoff msgs with
    | nil => simp [processChannel, h]
    | cons a t =>
      simp only [processChannel, h, List.isEmpty_cons, Bool.false_eq_true, if_false]
      exact List.Pairwise.sublist (List.take_sublist _ _)
        (sortByScoreDesc_pairwise (a :: t))
  · intro s
    cases h : filterRecent channel cutoff msgs with
    | nil => simp [processChannel, h]
    | cons a t =>
      simp only [processChannel, h, List.isEmpty_cons, Bool.false_eq_true, if_false]
      have hpre :
          (((sortByScoreDesc (a :: t)).take
              (max 1 (((a :: t).length + 4) / 5))).filter
            (fun p => p.interaction_score = s)) <+:
          ((sortByScoreDesc (a :: t)).filter
            (fun p => p.interaction_score = s)) :=
        (List.take_prefix _ _).filter _
      rwa [sortByScoreDesc_filter_score] at hpre

/-- C4: the global merge is exactly the concatenation of all per-channel
selections re-sorted descending by `interaction_score`, the re-sort is
stable (posts of any fixed score keep the concatenation order), and the
combined list's length is the sum over all channels of the per-channel
selected counts. -/
theorem combined_selection_sorted_stable (cutoff : Int)
    (channels : List (String × Except String (List Message))) :
    fetch_top_posts_with_client cutoff channels =
      sortByScoreDesc
        (((buildDict cutoff channels).map fun e => e.2.posts).flatten) ∧
    List.Pairwise (fun a b => b.interaction_score ≤ a.interaction_score)
      (fetch_top_posts_with_client cutoff channels) ∧
    (∀ s : Int,
      (fetch_top_posts_with_client cutoff channels).filter
          (fun p => p.interaction_score = s) =
        (((buildDict cutoff channels).map fun e => e.2.posts).flatten).filter
          (fun p => p.interaction_score = s)) ∧
    (fetch_top_posts_with_client cutoff channels).length =
      totalSelected cutoff channels := by
  refine ⟨rfl, sortByScoreDesc_pairwise _, fun s => sortByScoreDesc_filter_score _ s, ?_⟩
  unfold fetch_top_posts_with_client totalSelected sortByScoreDesc
  rw [List.length_mergeSort, List.length_flatten, List.map_map]
  congr 1
  exact List.map_congr_left fun e he =>
    buildDict_mem_posts_length cutoff channels e he

/-- C9: the outcome of the snapshot write never reaches the caller: the
function returns the full combined selection list whether the write
succeeds or raises, so publishing is not gated on snapshot success. -/
theorem snapshot_failure_nonfatal (cutoff : Int)
    (channels : List (String × Except String (List Message))) (err : String) :
    fetch_top_posts_run cutoff channels (Except.error err) =
      fetch_top_posts_with_client cutoff channels ∧
    ∀ o1 o2 : Except String Unit,
      fetch_top_posts_run cutoff channels o1 =
        fetch_top_posts_run cutoff channels o2 := by
  refine ⟨rfl, fun o1 o2 => ?_⟩
  cases o1 <;> cases o2 <;> rfl

/-- C7: a channel whose fetch raises is recorded with zero totals, an empty
post list and the error string, every other channel is still processed
normally, and the failed channel contributes nothing: the combined output
and the selected-count total are those of the run without it. -/
theorem channel_failure_isolated (cutoff : Int) (c e : String)
    (pre suf : List (String × Except String (List Message)))
    (hnodup : ((pre ++ (c, Except.error e) :: suf).map Prod.fst).Nodup) :
    buildDict cutoff (pre ++ (c, Except.error e) :: suf) =
      (pre.map fun x => (x.1, processChannel cutoff x.1 x.2)) ++
        (c, { total_posts := 0, selected_posts := 0, posts := [],
              error := some e }) ::
          (suf.map fun x => (x.1, processChannel cutoff x.1 x.2)) ∧
    fetch_top_posts_with_client cutoff (pre ++ (c, Except.error e) :: suf) =
      fetch_top_posts_with_client cutoff (pre ++ suf) ∧
    totalSelected cutoff (pre ++ (c, Except.error e) :: suf) =
      totalSelected cutoff (pre ++ suf) := by
  have h1 := buildDict_eq_map cutoff _ hnodup
  have hnodup2 : ((pre ++ suf).map Prod.fst).Nodup :=
    List.Sublist.nodup
      (List.Sublist.map Prod.fst
        ((List.sublist_cons_self (c, Except.error e) suf).append_left pre))
      hnodup
  have h2 := buildDict_eq_map cutoff (pre ++ suf) hnodup2
  refine ⟨by rw [h1]; simp [processChannel], ?_, ?_⟩
  · unfold fetch_top_posts_with_client
    rw [h1, h2]
    simp [processChannel]
  · unfold totalSelected
    rw [h1, h2]
    simp [processChannel]

theorem channel_failure_isolated_witness :
    fetch_top_posts_with_client 0
      [("a", Except.ok [{ date := 5, message := some "m", views := some 9,
                          forwards := some 0, id := 1, media := false }]),
       ("x", Except.error "boom"),
       ("b", Except.ok [{ date := 6, message := some "n", views := some 4,
                          forwards := some 2, id := 2, media := true }])] =
    fetch_top_posts_with_client 0
      [("a", Except.ok [{ date := 5, message := some "m", views := some 9,
                          forwards := some 0, id := 1, media := false }]),
       ("b", Except.ok [{ date := 6, message := some "n", views := some 4,
                          forwards := some 2, id := 2, media := true }])] :=
  (channel_failure_isolated 0 "x" "boom"
      [("a", Except.ok [{ date := 5, message := some "m", views := some 9,
                          forwards := some 0, id := 1, media := false }])]
      [("b", Except.ok [{ date := 6, message := some "n", views := some 4,
                          forwards := some 2, id := 2, media := true }])]
      (by decide)).2.1

/-- C5 is false as stated: on two channels holding one in-window post each,
`main.fetch_top_posts_with_client` selects one post per channel (two posts)
while `telegram_scraper.fetch_top_posts_last_24h` selects
`max(1, ⌊2 * 0.2⌋) = 1` post globally, so the two selection logics return
different results on identical inputs. -/
theorem main_scraper_not_equivalent :
    fetch_top_posts_with_client 0 demoChannels ≠
      fetch_top_posts_last_24h 0 demoChannels := by
  intro heq
  have hm : (fetch_top_posts_with_client 0 demoChannels).length = 2 := by
    unfold fetch_top_posts_with_client sortByScoreDesc
    rw [List.length_mergeSort]
    simp [demoChannels, buildDict, dictInsert, processChannel, filterRecent,
      sortByScoreDesc, List.mergeSort_singleton]
  have hs : (fetch_top_posts_last_24h 0 demoChannels).length = 1 := by
    unfold fetch_top_posts_last_24h sortByScoreDesc
    rw [List.length_take, List.length_mergeSort]
    simp [demoChannels, scraperAllPosts, filterRecent]
  rw [heq, hs] at hm
  exact absurd hm (by decide)

/-- C5 (amended): the two implementations are not equivalent in general
(`main.py` selects `max(1, ⌈n * 0.2⌉)` per channel, the scraper selects
`max(1, ⌊N * 0.2⌋)` from the global pool).  They agree on a single-channel
input whenever the filtered count `n` satisfies
`⌈n * 0.2⌉ = max(1, ⌊n * 0.2⌋)` — e.g. any positive multiple of 5 — where
both reduce to the same stable descending sort truncated to the same
count. -/
theorem main_scraper_single_channel_agreement (cutoff : Int) (channel : String)
    (msgs : List Message)
    (h : ((filterRecent channel cutoff msgs).length + 4) / 5 =
      max 1 ((filterRecent channel cutoff msgs).length / 5)) :
    fetch_top_posts_with_client cutoff [(channel, Except.ok msgs)] =
      fetch_top_posts_last_24h cutoff [(channel, Except.ok msgs)] := by
  have hn : 1 ≤ (filterRecent channel cutoff msgs).length := by omega
  have hk : 1 ≤ ((filterRecent channel cutoff msgs).length + 4) / 5 := by omega
  have hmain : fetch_top_posts_with_client cutoff [(channel, Except.ok msgs)] =
      sortByScoreDesc ((processChannel cutoff channel (Except.ok msgs)).posts) := by
    unfold fetch_top_posts_with_client buildDict
    simp [dictInsert]
  have hposts : (processChannel cutoff channel (Except.ok msgs)).posts =
      (sortByScoreDesc (filterRecent channel cutoff msgs)).take
        (((filterRecent channel cutoff msgs).length + 4) / 5) := by
    simp only [processChannel]
    rw [if_neg (by
      intro hemp
      rw [List.isEmpty_iff] at hemp
      rw [hemp] at hn
      simp at hn)]
    rw [Nat.max_eq_right hk]
  have hsorted : sortByScoreDesc
      ((sortByScoreDesc (filterRecent channel cutoff msgs)).take
        (((filterRecent channel cutoff msgs).length + 4) / 5)) =
      (sortByScoreDesc (filterRecent channel cutoff msgs)).take
        (((filterRecent channel cutoff msgs).length + 4) / 5) :=
    List.mergeSort_of_sorted
      (List.Pairwise.sublist (List.take_sublist _ _)
        (sortByScoreDesc_pairwiseBool (filterRecent channel cutoff msgs)))
  have hscraper : fetch_top_posts_last_24h cutoff [(channel, Except.ok msgs)] =
      (sortByScoreDesc (filterRecent channel cutoff msgs)).take
        (max 1 ((filterRecent channel cutoff msgs).length / 5)) := by
    unfold fetch_top_posts_last_24h scraperAllPosts
    simp
  rw [hmain, hposts, hsorted, hscraper, ← h]

theorem main_scraper_single_channel_agreement_witness :
    fetch_top_posts_with_client 0
      [("a", Except.ok
        [{ date := 9, message := some "p1", views := some 50, forwards := some 0,
           id := 1, media := false },
         { date := 8, message := some "p2", views := some 40, forwards := some 0,
           id := 2, media := false },
         { date := 7, message := some "p3", views := some 30, forwards := some 0,
           id := 3, media := false },
         { date := 6, message := some "p4", views := some 20, forwards := some 0,
           id := 4, media := false },
         { date := 5, message := some "p5", views := some 10, forwards := some 0,
           id := 5, media := false }])] =
    fetch_top_posts_last_24h 0
      [("a", Except.ok
        [{ date := 9, message := some "p1", views := some 50, forwards := some 0,
           id := 1, media := false },
         { date := 8, message := some "p2", views := some 40, forwards := some 0,
           id := 2, media := false },
         { date := 7, message := some "p3", views := some 30, forwards := some 0,
           id := 3, media := false },
         { date := 6, message := some "p4", views := some 20, forwards := some 0,
           id := 4, media := false },
         { date := 5, message := some "p5", views := some 10, forwards := some 0,
           id := 5, media := false }])] :=
  main_scraper_single_channel_agreement 0 "a"
    [{ date := 9, message := some "p1", views := some 50, forwards := some 0,
       id := 1, media := false },
     { date := 8, message := some "p2", views := some 40, forwards := some 0,
       id := 2, media := false },
     { date := 7, message := some "p3", views := some 30, forwards := some 0,
       id := 3, media := false },
     { date := 6, message := some "p4", views := some 20, forwards := some 0,
       id := 4, media := false },
     { date := 5, message := some "p5", views := some 10, forwards := some 0,
       id := 5, media := false }] (by decide)

end ContentCurator
